import Mathlib

set_option autoImplicit false

/-!
Verification of the Flight-Radar-CLI classification engine and its helpers.

The Rust sources are embedded shallowly:
* `f64` values that the program only compares, subtracts and formats are
  modelled as `ℚ` (the program never relies on floating-point rounding of
  arithmetic for the properties below);
* Rust `Option<T>` becomes `Option T`;
* Rust `String` becomes Lean `String`, with `str::starts_with`,
  `str::contains` and `str::to_uppercase` modelled over the character list
  (`String.data`);
* the `HashMap` reference table becomes a lookup function
  `String → Option AircraftInfo`;
* `serde_json::Value` becomes the inductive `JValue`.
-/

/-- Models Rust `str::to_uppercase` (only ASCII letters occur in this code base). -/
def strToUpper (s : String) : String := ⟨s.data.map Char.toUpper⟩

/-- Models Rust `str::starts_with`: the characters of `p` are a prefix of those of `s`. -/
def strStartsWith (s p : String) : Bool := p.data.isPrefixOf s.data

/-- Models Rust `str::contains`: the characters of `p` occur contiguously in `s`. -/
def strContains (s p : String) : Bool := decide (p.data <:+: s.data)

/-- Models Rust `{:.0}` formatting of the nonnegative `f64` values this program
formats: round to the nearest integer and print it.  (Rust rounds ties to even,
this rounds ties up; no theorem below depends on a tie.) -/
def fmt0 (q : ℚ) : String := toString (q + 1/2).floor

/-- Rust `src/models.rs`: the command-line configuration (`Args`).  `speed` defaults
to `300.0`, `spoof_delta` to `1000.0`, `radius` to `250.0`; the remaining fields
default to `None`. -/
structure Args where
  speed : ℚ
  aircraft_type : Option String
  location : Option String
  lat : Option ℚ
  lon : Option ℚ
  spoof_delta : ℚ
  radius : ℚ
  min_alt : Option ℚ
  max_alt : Option ℚ
deriving DecidableEq

/-- The configuration with every clap default and no optional flag given. -/
def defaultArgs : Args :=
  { speed := 300, aircraft_type := none, location := none, lat := none, lon := none
    spoof_delta := 1000, radius := 250, min_alt := none, max_alt := none }

/-- Rust `src/models.rs`: the `Aircraft` record decoded from one Airplanes.live
feed entry. -/
structure Aircraft where
  icao : String
  callsign : Option String
  type_code : Option String
  registration : Option String
  ground_speed : Option ℚ
  alt_baro : Option ℚ
  alt_geom : Option ℚ
  source_type : String
  lat : Option ℚ
  lon : Option ℚ
  is_military : Option Bool
deriving DecidableEq

/-- The reason string `format!("NAV ANOMALY (Δ {:.0}ft)", delta)`. -/
def navMsg (delta : ℚ) : String := "NAV ANOMALY (Δ " ++ fmt0 delta ++ "ft)"

/-- The reason string `format!("Speed ({:.0} kts @ {:.0} ft)", speed, alt)`. -/
def speedMsg (speed alt : ℚ) : String :=
  "Speed (" ++ fmt0 speed ++ " kts @ " ++ fmt0 alt ++ " ft)"

/-- The reason string `format!("HVT: {}", t)`. -/
def hvtMsg (t : String) : String := "HVT: " ++ t

/-- Rust `src/models.rs` line 152: the fixed allow-list of boring light-aircraft
types. -/
def boring_types : List String := ["C172", "C152", "P28A", "DA40", "R44", "G115"]

/-- Rust `src/models.rs` lines 164-168: the fixed high-value-target type list. -/
def high_value : List String :=
  ["K35R", "K46", "A332", "E3TF", "C17", "A400",
   "B52", "B1", "B2",
   "EUFI", "F35", "F16", "F18", "TORN"]

/-- Rust `src/models.rs` lines 133-142 of `check_interest`: the spoof/jamming
block, as a transformer of the mutable `reasons` vector. -/
def spoofStep (a : Aircraft) (args : Args) (reasons : List String) : List String :=
  match a.alt_baro, a.alt_geom with
  | some baro, some geom =>
      let delta := |baro - geom|
      if delta > args.spoof_delta then reasons ++ [navMsg delta] else reasons
  | _, _ => reasons

/-- Rust `src/models.rs` lines 145-148 of `check_interest`: the speed/altitude
block. -/
def speedStep (speed alt : ℚ) (args : Args) (reasons : List String) : List String :=
  if (alt < 25000 ∧ speed > args.speed) ∨ speed > 550 then
    reasons ++ [speedMsg speed alt]
  else reasons

/-- Rust `src/models.rs` lines 150-159 of `check_interest`: the MLAT
ghost-tracking block. -/
def mlatStep (a : Aircraft) (type_code : String) (reasons : List String) : List String :=
  if a.source_type = "mlat" then
    if boring_types.contains type_code then reasons
    else reasons ++ ["MLAT as source"]
  else reasons

/-- Rust `src/models.rs` lines 161-179 of `check_interest`: the high-value-target
block with the nested user-requested type match. -/
def hvtStep (a : Aircraft) (args : Args) (reasons : List String) : List String :=
  match a.type_code with
  | some t =>
      let reasons := if high_value.contains t then reasons ++ [hvtMsg t] else reasons
      match args.aircraft_type with
      | some target =>
          if strContains t target then reasons ++ ["Target Type Match"] else reasons
      | none => reasons
  | none => reasons

/-- Rust `src/models.rs` lines 181-184 of `check_interest`: the explicit military
flag block. -/
def milStep (a : Aircraft) (reasons : List String) : List String :=
  if a.is_military.getD false then reasons ++ ["MIL FLAG"] else reasons

/-- Rust `src/models.rs` `Aircraft::check_interest` (lines 122-191), translated
block by block: the `let` bindings, the `max_alt` hard filter (an early
`return None`), the successive pushes onto `reasons`, and the final empty test
with `reasons.join(", ")`.  Note the source never reads `args.min_alt`. -/
def check_interest (a : Aircraft) (args : Args) : Option String :=
  let speed := a.ground_speed.getD 0
  let alt := a.alt_baro.getD 0
  let type_code := a.type_code.getD ""
  if (match args.max_alt with
      | some max => decide (alt > max)
      | none => false) then none
  else
    let reasons : List String := []
    let reasons := spoofStep a args reasons
    let reasons := speedStep speed alt args reasons
    let reasons := mlatStep a type_code reasons
    let reasons := hvtStep a args reasons
    let reasons := milStep a reasons
    if reasons.isEmpty then none else some (String.intercalate ", " reasons)

/-- The hard-filter test of `check_interest` in isolation (lines 128-131). -/
def hardFiltered (a : Aircraft) (args : Args) : Bool :=
  match args.max_alt with
  | some max => decide (a.alt_baro.getD 0 > max)
  | none => false

/-- The spoof/jamming trigger of `check_interest` in isolation (lines 133-142):
the reason it pushes, when it pushes one. -/
def spoofR (a : Aircraft) (args : Args) : Option String :=
  match a.alt_baro, a.alt_geom with
  | some baro, some geom =>
      let delta := |baro - geom|
      if delta > args.spoof_delta then some (navMsg delta) else none
  | _, _ => none

/-- The speed/altitude trigger of `check_interest` in isolation (lines 145-148). -/
def speedR (a : Aircraft) (args : Args) : Option String :=
  let speed := a.ground_speed.getD 0
  let alt := a.alt_baro.getD 0
  if (alt < 25000 ∧ speed > args.speed) ∨ speed > 550 then
    some (speedMsg speed alt)
  else none

/-- The MLAT ghost-tracking trigger of `check_interest` in isolation
(lines 150-159). -/
def mlatR (a : Aircraft) (_args : Args) : Option String :=
  if a.source_type = "mlat" then
    if boring_types.contains (a.type_code.getD "") then none
    else some "MLAT as source"
  else none

/-- The high-value-target trigger of `check_interest` in isolation
(lines 161-171). -/
def hvtR (a : Aircraft) (_args : Args) : Option String :=
  match a.type_code with
  | some t => if high_value.contains t then some (hvtMsg t) else none
  | none => none

/-- The user-requested type-match trigger of `check_interest` in isolation
(lines 173-178); it sits inside the `if let Some(t)` of the HVT block. -/
def targetR (a : Aircraft) (args : Args) : Option String :=
  match a.type_code, args.aircraft_type with
  | some t, some target => if strContains t target then some "Target Type Match" else none
  | _, _ => none

/-- The explicit-military-flag trigger of `check_interest` in isolation
(lines 181-184). -/
def milR (a : Aircraft) (_args : Args) : Option String :=
  if a.is_military.getD false then some "MIL FLAG" else none

/-- The reasons of the six trigger blocks, in the order the source pushes them. -/
def orderedReasons (a : Aircraft) (args : Args) : List String :=
  (spoofR a args).toList ++ (speedR a args).toList ++ (mlatR a args).toList ++
    (hvtR a args).toList ++ (targetR a args).toList ++ (milR a args).toList

/-- The reasons an evaluation of `check_interest` actually pushes: none at all
when the hard filter rejects (the early `return None` short-circuits every
trigger), the six blocks in order otherwise. -/
def firedReasons (a : Aircraft) (args : Args) : List String :=
  if hardFiltered a args then [] else orderedReasons a args

/-- Rust `src/db.rs`: one row of the reference CSV (`AircraftInfo`). -/
structure AircraftInfo where
  icao : String
  operator : Option String
deriving DecidableEq

/-- Rust `src/db.rs`: the reference table `AircraftDB = HashMap<String,
AircraftInfo>`, modelled by its lookup function (`db.get`). -/
def AircraftDB := String → Option AircraftInfo

/-- Rust `src/models.rs` lines 195-222: `resolve_operator_by_callsign`. -/
def resolve_operator_by_callsign (callsign : String) : Option String :=
  let cs := strToUpper callsign
  if strStartsWith cs "RCH" then some "US Air Force (AMC)" else
  if strStartsWith cs "RRR" then some "Royal Air Force" else
  if strStartsWith cs "RRF" then some "Royal Air Force" else
  if strStartsWith cs "NATO" then some "NATO E-3A Component" else
  if strStartsWith cs "CNV" then some "US Navy" else
  if strStartsWith cs "GAF" then some "German Air Force" else
  if strStartsWith cs "IAM" then some "Italian Air Force" else
  if strStartsWith cs "FAF" then some "French Air Force" else
  if strStartsWith cs "SUI" then some "Swiss Air Force" else
  if strStartsWith cs "TUAF" then some "Turkish Air Force" else
  if strStartsWith cs "DLH" then some "Lufthansa" else
  if strStartsWith cs "RYR" then some "Ryanair" else
  if strStartsWith cs "EZY" then some "EasyJet" else
  if strStartsWith cs "BAW" then some "British Airways" else
  if strStartsWith cs "AFR" then some "Air France" else
  if strStartsWith cs "KLM" then some "KLM Royal Dutch Airlines" else
  if strStartsWith cs "SAS" then some "Scandinavian Airlines" else
  if strStartsWith cs "SVA" then some "Saudia" else
  if strStartsWith cs "UAE" then some "Emirates" else
  if strStartsWith cs "QTR" then some "Qatar Airways" else
  none

/-- Rust `src/models.rs`: the `DefenseDisplay` row. -/
structure DefenseDisplay where
  icao : String
  type_code : String
  operator : String
  callsign : String
  speed : ℚ
  alt : ℚ
  delta : String
  source : String
  reason : String
deriving DecidableEq

/-- Rust `src/models.rs` lines 226-262: `DefenseDisplay::new`, with the DB
lookup, the callsign fallback (taken when the DB gave `"Unknown"` or an empty
operator), and the formatted spoof delta. -/
def DefenseDisplay.new (a : Aircraft) (reason : String) (db : AircraftDB) :
    DefenseDisplay :=
  let callsign := a.callsign.getD ""
  let operator :=
    match db a.icao with
    | some info => info.operator.getD "Unknown"
    | none => "Unknown"
  let operator :=
    if operator = "Unknown" ∨ operator = "" then
      match resolve_operator_by_callsign callsign with
      | some guessed_op => guessed_op
      | none => operator
    else operator
  let delta_str :=
    match a.alt_baro, a.alt_geom with
    | some baro, some geom => fmt0 |baro - geom|
    | _, _ => "-"
  { icao := a.icao, type_code := a.type_code.getD "???", operator := operator,
    callsign := callsign, speed := a.ground_speed.getD 0, alt := a.alt_baro.getD 0,
    delta := delta_str, source := a.source_type, reason := reason }

/-- A `serde_json::Value`, as far as `StateVector::from_values` inspects one. -/
inductive JValue where
  | null
  | bool (b : Bool)
  | num (q : ℚ)
  | str (s : String)
  | arr (l : List JValue)
  | obj (fields : List (String × JValue))

/-- Models `serde_json::Value::as_str`. -/
def JValue.as_str : JValue → Option String
  | .str s => some s
  | _ => none

/-- Models `serde_json::Value::as_f64`. -/
def JValue.as_f64 : JValue → Option ℚ
  | .num q => some q
  | _ => none

/-- Models `serde_json::Value::as_bool`. -/
def JValue.as_bool : JValue → Option Bool
  | .bool b => some b
  | _ => none

/-- Rust `src/main.rs`: the `StateVector` record of the OpenSky revision. -/
structure StateVector where
  icao24 : String
  callsign : String
  origin_country : String
  longitude : Option ℚ
  latitude : Option ℚ
  on_ground : Bool
  velocity : Option ℚ
deriving DecidableEq

/-- Rust `src/main.rs` lines 61-91: `StateVector::from_values`.  The only
rejection is the length test; every field read is defaulted (`unwrap_or`),
including the identifier. -/
def from_values (values : List JValue) : Option StateVector :=
  if values.length < 10 then none
  else
    let icao24 := (((values.get? 0).getD .null).as_str).getD ""
    let callsign := (((values.get? 1).getD .null).as_str).getD ""
    let origin_country := (((values.get? 2).getD .null).as_str).getD ""
    let longitude := ((values.get? 5).getD .null).as_f64
    let latitude := ((values.get? 6).getD .null).as_f64
    let on_ground := (((values.get? 8).getD .null).as_bool).getD false
    let velocity := ((values.get? 9).getD .null).as_f64
    some { icao24, callsign, origin_country, longitude, latitude, on_ground, velocity }

/-- Rust `src/main.rs` lines 138-142: the batch loop that pushes every
successfully constructed record and silently skips the rest. -/
def collect_flights (states : List (List JValue)) : List StateVector :=
  states.foldl
    (fun flights raw =>
      match from_values raw with
      | some flight => flights ++ [flight]
      | none => flights)
    []

/-- Rust `src/main.rs` lines 93-108: `StateVector::is_anomaly` of the
country-matching revision — a speed test and an exact origin-country match;
no distance is computed anywhere in it. -/
def is_anomaly (s : StateVector) (threshold_speed : ℚ) (target_country : String) :
    Bool :=
  let speed := s.velocity.getD 0
  if speed > threshold_speed then true
  else if s.origin_country = target_country then true
  else false

/-- Modelled from the spec (§4.5): the outcome of one scan cycle's fetch-and-decode
step.  The live-loop revision of `main` (the one that drives `check_interest`,
`DefenseDisplay` and the KML export each cycle) is not among the provided source
files — only the single-shot revision is — so the per-cycle protocol is modelled
from the spec's words. -/
inductive FetchOutcome where
  | transportFailure
  | decodeFailure
  | ok (batch : List Aircraft)

/-- Modelled from the spec (§4.5 step 4): run every decoded aircraft through the
classification engine and keep exactly the flagged ones as the new snapshot. -/
def buildSnapshot (args : Args) (batch : List Aircraft) : List (Aircraft × String) :=
  batch.filterMap (fun a => (check_interest a args).map (fun r => (a, r)))

/-- Modelled from the spec (§4.5 steps 2-4): one scan cycle.  A transport or
decode failure leaves the previous snapshot unchanged; a successful decode
replaces it with the freshly built one. -/
def scanCycle (args : Args) (snap : List (Aircraft × String)) :
    FetchOutcome → List (Aircraft × String)
  | .transportFailure => snap
  | .decodeFailure => snap
  | .ok batch => buildSnapshot args batch

/-- Modelled from the spec (§4.5 step 5): the scan loop runs cycle after cycle;
it is a total fold, so no outcome sequence terminates it. -/
def scanLoop (args : Args) (snap : List (Aircraft × String))
    (outcomes : List FetchOutcome) : List (Aircraft × String) :=
  outcomes.foldl (scanCycle args) snap

/-- The aircraft of the end-to-end test of C5: hex 4b1814, 600 kts at 10000 ft,
a boring C172 tracked by MLAT, no military flag. -/
def ac4b : Aircraft :=
  { icao := "4b1814", callsign := none, type_code := some "C172", registration := none,
    ground_speed := some 600, alt_baro := some 10000, alt_geom := none,
    source_type := "mlat", lat := none, lon := none, is_military := none }

/-- A non-boring MLAT-tracked aircraft that also carries the military flag. -/
def acMlatMil : Aircraft :=
  { icao := "ae0000", callsign := none, type_code := none, registration := none,
    ground_speed := none, alt_baro := none, alt_geom := none,
    source_type := "mlat", lat := none, lon := none, is_military := some true }

/-- An aircraft with a 1500 ft gap between barometric and geometric altitude. -/
def acSpoof : Aircraft :=
  { icao := "3c0001", callsign := none, type_code := none, registration := none,
    ground_speed := none, alt_baro := some 10000, alt_geom := some 8500,
    source_type := "adsb", lat := none, lon := none, is_military := none }

/-- An aircraft reporting no geometric altitude. -/
def acNoGeom : Aircraft :=
  { icao := "3c0002", callsign := none, type_code := none, registration := none,
    ground_speed := none, alt_baro := some 10000, alt_geom := none,
    source_type := "adsb", lat := none, lon := none, is_military := none }

/-- A military-flagged aircraft at 50 ft, below the 100 ft minimum of
`argsMinAlt`. -/
def acLowMil : Aircraft :=
  { icao := "ae0001", callsign := none, type_code := none, registration := none,
    ground_speed := none, alt_baro := some 50, alt_geom := none,
    source_type := "adsb", lat := none, lon := none, is_military := some true }

/-- A military-flagged aircraft at 5000 ft, above the 1000 ft maximum of
`argsMaxAlt`. -/
def acHighMil : Aircraft :=
  { icao := "ae0002", callsign := none, type_code := none, registration := none,
    ground_speed := none, alt_baro := some 5000, alt_geom := none,
    source_type := "adsb", lat := none, lon := none, is_military := some true }

/-- The default configuration plus `--min-alt 100`. -/
def argsMinAlt : Args := { defaultArgs with min_alt := some 100 }

/-- The default configuration plus `--max-alt 1000`. -/
def argsMaxAlt : Args := { defaultArgs with max_alt := some 1000 }

/-- An otherwise quiet aircraft positioned exactly at the configured target
center of `argsGeo`. -/
def acCenter : Aircraft :=
  { icao := "3c0003", callsign := none, type_code := none, registration := none,
    ground_speed := some 100, alt_baro := some 10000, alt_geom := none,
    source_type := "adsb", lat := some 51, lon := some 0,
    is_military := none }

/-- The default configuration with a target center configured. -/
def argsGeo : Args := { defaultArgs with lat := some 51, lon := some 0 }

/-- A reference table whose single entry carries the literal operator
`"Unknown"`. -/
def dbUnknownOp : AircraftDB :=
  fun s => if s = "abc123" then some { icao := "abc123", operator := some "Unknown" }
           else none

/-- An aircraft present in `dbUnknownOp` whose callsign is `"RCH123"`. -/
def acRch : Aircraft :=
  { icao := "abc123", callsign := some "RCH123", type_code := none,
    registration := none, ground_speed := none, alt_baro := none, alt_geom := none,
    source_type := "adsb", lat := none, lon := none, is_military := none }

/-- A feed entry of ten JSON nulls: long enough to pass the shape test, with
its identifier missing. -/
def tenNulls : List JValue := List.replicate 10 JValue.null

/-- A reference table with one regular operator entry. -/
def dbOp : AircraftDB :=
  fun s => if s = "4b1111" then some { icao := "4b1111", operator := some "Edelweiss Air" }
           else none

/-- The empty reference table. -/
def dbEmpty : AircraftDB := fun _ => none

/-- An aircraft present in `dbOp`, carrying a military RCH callsign. -/
def acDb : Aircraft :=
  { icao := "4b1111", callsign := some "RCH999", type_code := none,
    registration := none, ground_speed := none, alt_baro := none, alt_geom := none,
    source_type := "adsb", lat := none, lon := none, is_military := none }

/-- An aircraft with no callsign and no table entry. -/
def acPlain : Aircraft :=
  { icao := "3c0004", callsign := none, type_code := none,
    registration := none, ground_speed := none, alt_baro := none, alt_geom := none,
    source_type := "adsb", lat := none, lon := none, is_military := none }

lemma spoofStep_eq (a : Aircraft) (args : Args) (rs : List String) :
    spoofStep a args rs = rs ++ (spoofR a args).toList := by
  unfold spoofStep spoofR
  cases a.alt_baro <;> cases a.alt_geom <;> simp
  split <;> simp

lemma speedStep_eq (a : Aircraft) (args : Args) (rs : List String) :
    speedStep (a.ground_speed.getD 0) (a.alt_baro.getD 0) args rs
      = rs ++ (speedR a args).toList := by
  unfold speedStep speedR
  by_cases h : ((a.alt_baro.getD 0 : ℚ) < 25000 ∧ a.ground_speed.getD 0 > args.speed)
      ∨ a.ground_speed.getD 0 > 550 <;>
    simp [h]

lemma mlatStep_eq (a : Aircraft) (args : Args) (rs : List String) :
    mlatStep a (a.type_code.getD "") rs = rs ++ (mlatR a args).toList := by
  unfold mlatStep mlatR
  by_cases h : a.source_type = "mlat" <;> simp [h]
  split <;> simp

lemma hvtStep_eq (a : Aircraft) (args : Args) (rs : List String) :
    hvtStep a args rs = rs ++ (hvtR a args).toList ++ (targetR a args).toList := by
  unfold hvtStep hvtR targetR
  cases a.type_code <;> cases args.aircraft_type <;> simp
  case some.none => split <;> simp
  case some.some => split <;> split <;> simp

lemma milStep_eq (a : Aircraft) (args : Args) (rs : List String) :
    milStep a rs = rs ++ (milR a args).toList := by
  unfold milStep milR
  by_cases h : a.is_military.getD false <;> simp [h]

/-- Decomposition of the monolithic `check_interest` into the hard filter and the
six trigger blocks, in source order. -/
lemma check_interest_eq (a : Aircraft) (args : Args) :
    check_interest a args =
      if hardFiltered a args then none
      else if (orderedReasons a args).isEmpty then none
      else some (String.intercalate ", " (orderedReasons a args)) := by
  unfold check_interest hardFiltered
  simp only [spoofStep_eq a args, speedStep_eq a args, mlatStep_eq a args,
    hvtStep_eq a args, milStep_eq a args, orderedReasons, List.nil_append,
    List.append_assoc]

/-- Mapping `Char.toUpper` over a character list keeps `"RCH"` as a prefix. -/
lemma isPrefixOf_RCH_map_toUpper (l : List Char) :
    (['R', 'C', 'H'] : List Char).isPrefixOf l = true →
      (['R', 'C', 'H'] : List Char).isPrefixOf (l.map Char.toUpper) = true := by
  match l with
  | [] => intro h; simp [List.isPrefixOf] at h
  | [c1] => intro h; simp [List.isPrefixOf] at h
  | [c1, c2] => intro h; simp [List.isPrefixOf] at h
  | c1 :: c2 :: c3 :: t =>
      intro h
      simp only [List.isPrefixOf, Bool.and_eq_true, beq_iff_eq] at h
      obtain ⟨h1, h2, h3, -⟩ := h
      subst h1; subst h2; subst h3
      simp [List.isPrefixOf]

lemma strStartsWith_toUpper_RCH (cs : String) (h : strStartsWith cs "RCH" = true) :
    strStartsWith (strToUpper cs) "RCH" = true := by
  unfold strStartsWith at h ⊢
  unfold strToUpper
  exact isPrefixOf_RCH_map_toUpper cs.data h

lemma collect_flights_aux (states : List (List JValue)) (acc : List StateVector) :
    states.foldl
        (fun flights raw =>
          match from_values raw with
          | some flight => flights ++ [flight]
          | none => flights)
        acc
      = acc ++ states.filterMap from_values := by
  induction states generalizing acc with
  | nil => simp
  | cons s rest ih =>
      cases h : from_values s <;>
        simp [List.foldl_cons, h, ih, List.filterMap_cons]

/-- C1: the code has only the `max_alt` hard filter.  An aircraft above a
configured `max_alt` is excluded with no result, but an aircraft below a
configured `min_alt` is NOT excluded: `check_interest` never reads
`args.min_alt`, so the military-flagged aircraft at 50 ft still produces a
result under `--min-alt 100`. -/
theorem hard_filter_max_only :
    argsMaxAlt.max_alt = some 1000 ∧ acHighMil.alt_baro.getD 0 > 1000 ∧
    check_interest acHighMil argsMaxAlt = none ∧
    argsMinAlt.min_alt = some 100 ∧ acLowMil.alt_baro.getD 0 < 100 ∧
    acLowMil.is_military = some true ∧
    check_interest acLowMil argsMinAlt = some "MIL FLAG" := by
  decide

/-- C2: `check_interest` returns no result iff zero triggers fire (the hard
filter short-circuits, so a hard-filtered aircraft fires zero triggers); when
at least one trigger fires, the result is the non-empty reason list joined in
the fixed evaluation order: spoof, speed/altitude, MLAT ghost, high-value type,
user-requested type match, explicit military flag. -/
theorem classification_none_iff_no_trigger (a : Aircraft) (args : Args) :
    (check_interest a args = none ↔ firedReasons a args = []) ∧
    (firedReasons a args ≠ [] →
      check_interest a args =
        some (String.intercalate ", "
          ((spoofR a args).toList ++ (speedR a args).toList ++ (mlatR a args).toList ++
            (hvtR a args).toList ++ (targetR a args).toList ++ (milR a args).toList))) := by
  rw [check_interest_eq]
  unfold firedReasons
  by_cases hf : hardFiltered a args
  · simp [hf]
  · by_cases he : orderedReasons a args = []
    · simp [hf, he]
    · simp only [hf, Bool.false_eq_true, if_false, List.isEmpty_iff, he, ite_false,
        ne_eq, not_false_iff, true_implies]
      constructor
      · simp [he]
      · rw [orderedReasons]

theorem classification_none_iff_no_trigger_witness :
    firedReasons acMlatMil defaultArgs ≠ [] ∧
    check_interest acMlatMil defaultArgs =
      some (String.intercalate ", "
        ((spoofR acMlatMil defaultArgs).toList ++ (speedR acMlatMil defaultArgs).toList ++
          (mlatR acMlatMil defaultArgs).toList ++ (hvtR acMlatMil defaultArgs).toList ++
          (targetR acMlatMil defaultArgs).toList ++ (milR acMlatMil defaultArgs).toList)) :=
  ⟨by decide, (classification_none_iff_no_trigger acMlatMil defaultArgs).2 (by decide)⟩

/-- C3: with both altitudes present, the spoof trigger fires iff the absolute
difference strictly exceeds `spoof_delta` (equality does not fire), and the
emitted reason carries that delta; with either altitude absent, the trigger is
skipped. -/
theorem spoof_trigger_iff (a : Aircraft) (args : Args) :
    (∀ baro geom, a.alt_baro = some baro → a.alt_geom = some geom →
      (((spoofR a args).isSome = true ↔ |baro - geom| > args.spoof_delta) ∧
       (|baro - geom| > args.spoof_delta →
         spoofR a args = some (navMsg |baro - geom|)))) ∧
    (a.alt_baro = none ∨ a.alt_geom = none → spoofR a args = none) := by
  unfold spoofR
  constructor
  · intro baro geom hb hg
    rw [hb, hg]
    by_cases h : |baro - geom| > args.spoof_delta <;> simp [h]
  · rintro (h | h)
    · rw [h]
    · rw [h]; cases a.alt_baro <;> rfl

theorem spoof_trigger_iff_witness :
    (spoofR acSpoof defaultArgs).isSome = true ∧
    spoofR acSpoof defaultArgs = some (navMsg |(10000 : ℚ) - 8500|) ∧
    spoofR acNoGeom defaultArgs = none :=
  ⟨((spoof_trigger_iff acSpoof defaultArgs).1 10000 8500 rfl rfl).1.mpr
      (by norm_num [defaultArgs]),
   ((spoof_trigger_iff acSpoof defaultArgs).1 10000 8500 rfl rfl).2
      (by norm_num [defaultArgs]),
   (spoof_trigger_iff acNoGeom defaultArgs).2 (Or.inr rfl)⟩

/-- C4: with ground speed absent it defaults to 0, and whenever the configured
threshold is non-negative the speed/altitude trigger cannot fire: 0 exceeds
neither the threshold nor the 550-knot ceiling. -/
theorem absent_speed_no_speed_trigger (a : Aircraft) (args : Args)
    (h : a.ground_speed = none) (h0 : 0 ≤ args.speed) :
    speedR a args = none := by
  unfold speedR
  rw [h]
  simp only [Option.getD_none]
  rw [if_neg]
  rintro (⟨-, hs⟩ | hs)
  · exact absurd hs (not_lt.mpr h0)
  · norm_num at hs

theorem absent_speed_no_speed_trigger_witness :
    acMlatMil.ground_speed = none ∧ (0 : ℚ) ≤ defaultArgs.speed ∧
    speedR acMlatMil defaultArgs = none :=
  ⟨rfl, by decide,
   absent_speed_no_speed_trigger acMlatMil defaultArgs rfl (by decide)⟩

/-- C5: for an MLAT-sourced aircraft the ghost trigger fires iff the type code
is off the boring-type allow-list; and the concrete hex-4b1814 C172 at 600 kts
and 10000 ft under the default configuration yields exactly the one "Speed"
reason and no MLAT trigger. -/
theorem mlat_trigger_and_endtoend :
    (∀ (a : Aircraft) (args : Args), a.source_type = "mlat" →
      (mlatR a args = some "MLAT as source" ↔
        boring_types.contains (a.type_code.getD "") = false)) ∧
    check_interest ac4b defaultArgs = some "Speed (600 kts @ 10000 ft)" ∧
    firedReasons ac4b defaultArgs = ["Speed (600 kts @ 10000 ft)"] ∧
    mlatR ac4b defaultArgs = none := by
  refine ⟨?_, ?_, ?_, by decide⟩
  · intro a args h
    simp only [mlatR, h, if_pos]
    by_cases hb : boring_types.contains (a.type_code.getD "") <;> simp [hb]
  · rw [check_interest_eq]
    norm_num [hardFiltered, orderedReasons, spoofR, speedR, mlatR, hvtR, targetR,
      milR, defaultArgs, ac4b, boring_types, high_value, speedMsg, fmt0, Rat.floor]
    decide
  · unfold firedReasons
    norm_num [hardFiltered, orderedReasons, spoofR, speedR, mlatR, hvtR, targetR,
      milR, defaultArgs, ac4b, boring_types, high_value, speedMsg, fmt0, Rat.floor]
    decide

theorem mlat_trigger_and_endtoend_witness :
    ac4b.source_type = "mlat" ∧
    (mlatR ac4b defaultArgs = some "MLAT as source" ↔
      boring_types.contains (ac4b.type_code.getD "") = false) :=
  ⟨rfl, (mlat_trigger_and_endtoend).1 ac4b defaultArgs rfl⟩

/-- C6 counterexample: the reference table maps the identifier to the non-blank
operator string "Unknown", yet resolution does NOT yield that operator — the
literal "Unknown" re-enters the callsign fallback and the RCH callsign wins. -/
theorem operator_table_unknown_counterexample :
    dbUnknownOp acRch.icao = some { icao := "abc123", operator := some "Unknown" } ∧
    ("Unknown" : String) ≠ "" ∧
    (DefenseDisplay.new acRch "r" dbUnknownOp).operator = "US Air Force (AMC)" := by
  decide

/-- C6 amended: a table entry whose operator is non-empty AND not the literal
"Unknown" always wins, regardless of callsign; with the identifier absent from
the table, a callsign starting with "RCH" yields "US Air Force (AMC)"; when
neither the table nor the callsign-prefix map resolves, the label is
"Unknown". -/
theorem operator_resolution (a : Aircraft) (db : AircraftDB) :
    (∀ (info : AircraftInfo) (op r : String),
      db a.icao = some info → info.operator = some op → op ≠ "Unknown" → op ≠ "" →
      (DefenseDisplay.new a r db).operator = op) ∧
    (∀ (cs r : String),
      db a.icao = none → a.callsign = some cs → strStartsWith cs "RCH" = true →
      (DefenseDisplay.new a r db).operator = "US Air Force (AMC)") ∧
    (∀ r : String,
      db a.icao = none → resolve_operator_by_callsign (a.callsign.getD "") = none →
      (DefenseDisplay.new a r db).operator = "Unknown") := by
  refine ⟨?_, ?_, ?_⟩
  · intro info op r h1 h2 h3 h4
    simp only [DefenseDisplay.new, h1, h2, Option.getD_some]
    rw [if_neg]
    rintro (hu | he)
    · exact h3 hu
    · exact h4 he
  · intro cs r h1 h2 h3
    have hr : resolve_operator_by_callsign cs = some "US Air Force (AMC)" := by
      unfold resolve_operator_by_callsign
      simp [strStartsWith_toUpper_RCH cs h3]
    simp only [DefenseDisplay.new, h1, h2, Option.getD_some, hr]
    simp
  · intro r h1 h2
    simp only [DefenseDisplay.new, h1, h2]
    simp

theorem operator_resolution_witness :
    (DefenseDisplay.new acDb "r" dbOp).operator = "Edelweiss Air" ∧
    (DefenseDisplay.new acRch "r" dbEmpty).operator = "US Air Force (AMC)" ∧
    (DefenseDisplay.new acPlain "r" dbEmpty).operator = "Unknown" :=
  ⟨(operator_resolution acDb dbOp).1 { icao := "4b1111", operator := some "Edelweiss Air" }
      "Edelweiss Air" "r" (by decide) rfl (by decide) (by decide),
   (operator_resolution acRch dbEmpty).2.1 "RCH123" "r" rfl rfl (by decide),
   (operator_resolution acPlain dbEmpty).2.2 "r" rfl (by decide)⟩

/-- C7 counterexample: the target center is configured, the aircraft sits
exactly at it (distance 0, well inside the 250 nmi radius), yet classification
produces no result at all — in particular no geofence trigger. -/
theorem geofence_no_trigger_counterexample :
    argsGeo.lat = acCenter.lat ∧ argsGeo.lon = acCenter.lon ∧
    argsGeo.radius = 250 ∧ acCenter.lat.isSome = true ∧
    check_interest acCenter argsGeo = none := by
  decide

/-- C7 amended: classification computes no distance and emits no geofence
trigger — the aircraft's position and the configured center and radius never
affect the result of `check_interest` (the haversine helper exists in
`src/geo.rs` only as commented-out code, and `is_anomaly` uses speed and
origin country only). -/
theorem classification_ignores_position (a : Aircraft) (args : Args)
    (la lo cla clo : Option ℚ) (r : ℚ) :
    check_interest { a with lat := la, lon := lo }
        { args with lat := cla, lon := clo, radius := r }
      = check_interest a args := rfl

/-- C8 (modelled from the spec, §4.5): a scan cycle whose fetch fails in
transport or whose body fails to decode leaves the published snapshot
unchanged, and the loop—being a total fold—simply proceeds with the remaining
cycles instead of terminating. -/
theorem scan_failure_preserves_snapshot (args : Args)
    (snap : List (Aircraft × String)) (rest : List FetchOutcome) :
    scanCycle args snap FetchOutcome.transportFailure = snap ∧
    scanCycle args snap FetchOutcome.decodeFailure = snap ∧
    scanLoop args snap (FetchOutcome.transportFailure :: rest) =
      scanLoop args snap rest ∧
    scanLoop args snap (FetchOutcome.decodeFailure :: rest) =
      scanLoop args snap rest :=
  ⟨rfl, rfl, rfl, rfl⟩

/-- C9 counterexample: a ten-element entry whose identifier slot is JSON null —
the identifier is missing (`as_str` gives `None`), yet construction still
returns a record (with an empty-string identifier) instead of rejecting it. -/
theorem from_values_missing_identifier :
    ((tenNulls.get? 0).getD JValue.null).as_str = none ∧
    from_values tenNulls =
      some { icao24 := "", callsign := "", origin_country := "", longitude := none,
             latitude := none, on_ground := false, velocity := none } :=
  ⟨rfl, rfl⟩

/-- C9 amended: construction returns no record exactly when the entry has fewer
than ten values; a missing identifier defaults to the empty string and is NOT
rejected; and the batch loop keeps every constructed record while silently
skipping the rejected entries, never aborting. -/
theorem from_values_rejects_iff_short (states : List (List JValue))
    (vs : List JValue) :
    (from_values vs = none ↔ vs.length < 10) ∧
    collect_flights states = states.filterMap from_values := by
  constructor
  · unfold from_values
    split <;> simp_all
  · unfold collect_flights
    rw [collect_flights_aux]
    simp
